import Mathlib

/-!
Shallow embedding of `pkg/download/artifactDownloader.go` (app-builder).

Filesystem, network and subprocess effects are modelled by oracles carried in
an `Env` record; every operation of the pipeline additionally records an
`Event` in an observable trace, so that statements such as "no download is
performed on a cache hit" are expressible.  Strings are compared at the level
of characters; all inputs handled by this program are ASCII, where Go's
byte-indexed `strings` functions agree with the character-level model.
-/

namespace AppBuilder

/-- Result of one call: a returned path, a returned Go error, or a Go runtime
panic. -/
inductive Outcome where
  | ok (path : String)
  | err (msg : String)
  | panic (msg : String)
deriving DecidableEq, Repr

/-- Observable side effects of one call, in order of occurrence. -/
inductive Event where
  | stat (path : String)
  | mkdirAll (path : String)
  | tempDir (dir : String)
  | tempFile (dir sfx : String)
  | download (url dest checksum : String)
  | unpack7z (archive dest : String)
  | unpackTarXz (archive dest : String)
  | remove (path : String)
  | removeAll (path : String)
  | rename (src dst : String)
  | warn (msg : String)
deriving DecidableEq, Repr

/-- Result of `os.Stat`: success (recording whether the entry is a
directory), the `IsNotExist` error, or any other error. -/
inductive StatRes where
  | found (isDir : Bool)
  | notExist
  | errOther (msg : String)
deriving DecidableEq, Repr

/-- Result of `os.Remove`: success, the ENOENT `*PathError` Go returns for a
missing file (a non-nil error), or any other error. -/
inductive RemoveRes where
  | ok
  | errNotExist
  | errOther (msg : String)
deriving DecidableEq, Repr

/-- The ambient environment: `runtime.GOOS` / `runtime.GOARCH`, environment
variables, and oracles giving the outcome of each external effect. -/
structure Env where
  goos : String
  goarch : String
  cacheOverrideEnv : String
  localAppData : String
  username : String
  osTempDir : String
  homeDir : Except String String
  stat : String → StatRes
  mkdirAll : String → Except String Unit
  tempDir : String → Except String String
  tempFile : String → String → Except String String
  download : String → String → String → Except String Unit
  run7zExtract : String → String → Except String String
  runTarXzUnpack : String → String → Except String Unit
  remove : String → RemoveRes
  rename : String → String → Except String Unit

/-! ### String helpers (Go `strings` / `path` functions) -/

/-- `listIsPfx p l`: `p` is a prefix of `l` (Boolean). -/
def listIsPfx : List Char → List Char → Bool
  | [], _ => true
  | _ :: _, [] => false
  | a :: as, b :: bs => a == b && listIsPfx as bs

/-- Index of the first occurrence of `pat` in the list, if any. -/
def firstIdx (pat : List Char) : List Char → Option Nat
  | [] => if pat.isEmpty then some 0 else none
  | c :: rest =>
    if listIsPfx pat (c :: rest) then some 0
    else (firstIdx pat rest).map (· + 1)

/-- Go `strings.Index`: first index of `sub` in `s`, or `-1`. -/
def goIndex (s sub : String) : Int :=
  match firstIdx sub.data s.data with
  | some n => (n : Int)
  | none => -1

/-- Go slice `s[0:n]` after the caller has checked `0 ≤ n ≤ len s`. -/
def goTake (s : String) (n : Int) : String :=
  ⟨s.data.take n.toNat⟩

/-- Go `strings.HasSuffix`. -/
def hasSuffixStr (s sfx : String) : Bool :=
  listIsPfx sfx.data.reverse s.data.reverse

/-- Go `strings.Contains`. -/
def strContains (s sub : String) : Bool :=
  (firstIdx sub.data s.data).isSome

/-- ASCII lower-casing, the fragment of Go `strings.ToLower` exercised by
this program (its inputs are ASCII paths and user names). -/
def asciiLowerChar (c : Char) : Char :=
  if 'A' ≤ c ∧ c ≤ 'Z' then Char.ofNat (c.toNat + 32) else c

/-- ASCII `strings.ToLower` on strings. -/
def asciiLower (s : String) : String :=
  ⟨s.data.map asciiLowerChar⟩

/-- Go `strings.TrimSuffix`. -/
def trimSfx (s sfx : String) : String :=
  if hasSuffixStr s sfx then ⟨s.data.take (s.data.length - sfx.data.length)⟩ else s

/-- Go `path.Join` / `filepath.Join` on two non-degenerate components
(path cleaning, which never fires on the inputs this program joins, is
omitted). -/
def joinPath (a b : String) : String :=
  if a = "" then b else if b = "" then a else a ++ "/" ++ b

/-- Go `path.Base`, restricted to the non-degenerate inputs this program
passes (no trailing slashes): the final slash-separated component. -/
def pathBase (p : String) : String :=
  if p = "" then "."
  else
    match ((p.splitOn "/").filter (fun s => s ≠ "")).getLast? with
    | some c => c
    | none => "/"

/-- Go `path.Ext`: the suffix of the final component starting at its last
dot, or `""` when the final component has no dot. -/
def pathExt (p : String) : String :=
  let revTail := p.data.reverse.takeWhile (fun c => c ≠ '/')
  if revTail.contains '.' then ⟨'.' :: (revTail.takeWhile (fun c => c ≠ '.')).reverse⟩
  else ""

/-! ### Cache root (`GetCacheDirectory`) -/

/-- `GetCacheDirectory` from the source: cache-override environment variable
wins; macOS uses `~/Library/Caches/<dirName>`; Windows with `LOCALAPPDATA`
uses `<localAppData>/<dirName>/cache` unless running as a system account;
otherwise `<home>/.cache/electron-builder` (the parameter is ignored). -/
def GetCacheDirectory (env : Env) (dirName : String) : Except String String :=
  if env.cacheOverrideEnv ≠ "" then .ok env.cacheOverrideEnv
  else if env.goos = "darwin" then
    env.homeDir.map (fun home => joinPath (joinPath (joinPath home "Library") "Caches") dirName)
  else if env.goos = "windows" ∧ env.localAppData ≠ "" then
    if strContains (asciiLower env.localAppData) "\\windows\\system32\\" = true
        ∨ asciiLower env.username = "system" then
      .ok (joinPath env.osTempDir (dirName ++ "-cache"))
    else
      .ok (joinPath (joinPath env.localAppData dirName) "cache")
  else
    env.homeDir.map (fun home => joinPath (joinPath home ".cache") "electron-builder")

/-! ### Identity normalisation and final-path computation -/

/-- Lines 64-69 of the source: the family subdirectory under the cache root
(everything before the first hyphen when a hyphen occurs past position 0,
otherwise the directory name itself). -/
def familyCacheDir (root dn : String) : String :=
  if goIndex dn "-" > 0 then joinPath root (goTake dn (goIndex dn "-"))
  else joinPath root dn

/-- Line 70 of the source: the final cache path for a derived dir name. -/
def finalPathFor (root dn : String) : String :=
  joinPath (familyCacheDir root dn) dn

/-- Line 50 of the source: the synthesized Node.js distribution URL for a
version-and-architecture token. -/
def nodeUrl (versionAndArch : String) : String :=
  "https://nodejs.org/dist/v" ++ goTake versionAndArch (goIndex versionAndArch "-")
    ++ "/node-v" ++ versionAndArch ++ ".tar.xz"

/-- The URL actually downloaded: rewritten for the Node.js special case,
untouched otherwise. -/
def effectiveUrl (dirName url : String) : String :=
  if dirName = "node" then nodeUrl url else url

/-- Lines 54-57 of the source: derive the dir name from the URL basename
when the supplied name is empty. -/
def derivedDirName (dn url : String) : String :=
  if dn = "" then
    let fileName := pathBase url
    trimSfx fileName (pathExt fileName)
  else dn

/-- The cache directory name after the Node.js rewrite and the empty-name
derivation. -/
def effectiveDirName (dirName url : String) : String :=
  derivedDirName (if dirName = "node" then dirName ++ "-" ++ url else dirName)
    (effectiveUrl dirName url)

/-- The temp-archive suffix chosen on lines 100-104 of the source. -/
def archiveSfxFor (isNode : Bool) : String :=
  if isNode then ".tar.xz" else ".7z"

/-- The warning logged when the publish rename fails (line 143). -/
def warnRaceMsg : String :=
  "cannot move downloaded into final location (another process downloaded faster?)"

/-! ### The acquisition pipeline (`DownloadArtifact`) -/

/-- Lines 132-144 of the source: publish the populated temp directory by
rename (with the extra-nesting special case for `.tar.7z` URLs); a rename
failure is logged as a warning and the call still reports the final path. -/
def publishArtifact (env : Env) (tempUnpackDir url filePath : String) :
    Outcome × List Event :=
  if hasSuffixStr url ".tar.7z" then
    let src := joinPath tempUnpackDir (pathBase tempUnpackDir)
    match env.rename src filePath with
    | .error _ =>
      (.ok filePath, [.rename src filePath, .removeAll tempUnpackDir, .warn warnRaceMsg])
    | .ok _ => (.ok filePath, [.rename src filePath, .removeAll tempUnpackDir])
  else
    match env.rename tempUnpackDir filePath with
    | .error _ => (.ok filePath, [.rename tempUnpackDir filePath, .warn warnRaceMsg])
    | .ok _ => (.ok filePath, [.rename tempUnpackDir filePath])

/-- Lines 127-130 then 132-148: delete the consumed archive (any `os.Remove`
error, the ENOENT one included, is returned as a fatal error), then publish. -/
def removeThenPublish (env : Env) (archiveName tempUnpackDir url filePath : String) :
    Outcome × List Event :=
  match env.remove archiveName with
  | .errNotExist =>
    (.err ("remove " ++ archiveName ++ ": no such file or directory"), [.remove archiveName])
  | .errOther m => (.err m, [.remove archiveName])
  | .ok =>
    let r := publishArtifact env tempUnpackDir url filePath
    (r.1, .remove archiveName :: r.2)

/-- Lines 111-125: the two unpack strategies; the Node.js kind streams
through `unpackTarXz`, everything else invokes the 7za extraction command. -/
def unpackStep (env : Env) (isNode : Bool) (archiveName tempUnpackDir : String) :
    Except String Unit × Event :=
  if isNode then
    (env.runTarXzUnpack archiveName tempUnpackDir, .unpackTarXz archiveName tempUnpackDir)
  else
    ((env.run7zExtract archiveName tempUnpackDir).map (fun _ => ()),
      .unpack7z archiveName tempUnpackDir)

/-- Lines 86-148 of the source after a cache miss: create the cache dir,
allocate the temp dir, download the archive, unpack it, delete it and
publish. -/
def acquireArtifact (env : Env) (isNode : Bool) (cacheDir filePath url checksum : String) :
    Outcome × List Event :=
  match env.mkdirAll cacheDir with
  | .error e => (.err e, [.mkdirAll cacheDir])
  | .ok _ =>
    match env.tempDir cacheDir with
    | .error e => (.err e, [.mkdirAll cacheDir, .tempDir cacheDir])
    | .ok tempUnpackDir =>
      let archiveName := tempUnpackDir ++ archiveSfxFor isNode
      match env.download url archiveName checksum with
      | .error e =>
        (.err e, [.mkdirAll cacheDir, .tempDir cacheDir, .download url archiveName checksum])
      | .ok _ =>
        let u := unpackStep env isNode archiveName tempUnpackDir
        match u.1 with
        | .error e =>
          (.err e,
            [.mkdirAll cacheDir, .tempDir cacheDir, .download url archiveName checksum, u.2])
        | .ok _ =>
          let r := removeThenPublish env archiveName tempUnpackDir url filePath
          (r.1,
            [.mkdirAll cacheDir, .tempDir cacheDir, .download url archiveName checksum, u.2]
              ++ r.2)

/-- Lines 46-149 of the source: the body of `DownloadArtifact` past the
`fpm`/`zstd` dispatch.  A `"node"` request whose url token has no hyphen
panics exactly where Go's slice expression `url[0:strings.Index(url, "-")]`
does. -/
def downloadArtifactRaw (env : Env) (dirName₀ url₀ checksum : String) :
    Outcome × List Event :=
  if dirName₀ = "node" ∧ goIndex url₀ "-" < 0 then
    (.panic "runtime error: slice bounds out of range [:-1]", [])
  else
    let url := effectiveUrl dirName₀ url₀
    let dirName := effectiveDirName dirName₀ url₀
    match GetCacheDirectory env "electron-builder" with
    | .error e => (.err e, [])
    | .ok cacheRoot =>
      let cacheDir := familyCacheDir cacheRoot dirName
      let filePath := finalPathFor cacheRoot dirName
      match env.stat filePath with
      | .found isDir =>
        if isDir || hasSuffixStr filePath ".tar" then (.ok filePath, [.stat filePath])
        else
          let r := acquireArtifact env (dirName₀ = "node") cacheDir filePath url checksum
          (r.1, .stat filePath :: r.2)
      | .errOther m =>
        (.err ("error during cache check for path " ++ filePath ++ ": " ++ m), [.stat filePath])
      | .notExist =>
        let r := acquireArtifact env (dirName₀ = "node") cacheDir filePath url checksum
        (r.1, .stat filePath :: r.2)

/-! ### Tool catalog (`DownloadTool`, `DownloadFpm`, `DownloadZstd`) -/

/-- `ToolDescriptor` from the source; the Go maps become association lists
whose lookup yields `""` for an absent key, as a Go map read does. -/
structure ToolDescriptor where
  name : String
  version : String
  repository : String
  mac : String
  linux : List (String × String)
  win : List (String × String)

/-- Go map indexing with the zero-value default. -/
def mapGetD (m : List (String × String)) (k : String) : String :=
  match m.find? (fun p => p.1 == k) with
  | some p => p.2
  | none => ""

/-- Lines 330-337: architecture alias normalisation. -/
def normalizeArch (a : String) : String :=
  if a = "arm" then "armv7"
  else if a = "arm64" then "armv8"
  else if a = "amd64" then "x64"
  else a

/-- Lines 339-355: the checksum registered for the platform/arch pair. -/
def toolChecksum (d : ToolDescriptor) (osName arch : String) : String :=
  if osName = "darwin" then d.mac
  else if osName = "win32" then mapGetD d.win arch
  else mapGetD d.linux arch

/-- Lines 342-355: the `osQualifier + archQualifier` name fragment. -/
def toolOsAndArch (osName arch : String) : String :=
  if osName = "darwin" then "mac"
  else if osName = "win32" then "win-" ++ arch
  else "linux-" ++ arch

/-- Lines 329-379 of the source.  The generated directory name always
contains two hyphens, so the recursive `DownloadArtifact` call in Go never
re-enters a special case and is embedded as a direct call of the generic
body. -/
def DownloadTool (env : Env) (d : ToolDescriptor) (osName : String) :
    Outcome × List Event :=
  let arch := normalizeArch env.goarch
  let checksum := toolChecksum d osName arch
  if checksum = "" then
    (.err ("Checksum not specified for " ++ osName ++ ":" ++ arch), [])
  else
    let repo := if d.repository = "" then "electron-userland/electron-builder-binaries"
      else d.repository
    let tagPart := if d.repository = "" then d.name ++ "-" else "v"
    let osAndArch := toolOsAndArch osName arch
    downloadArtifactRaw env (d.name ++ "-" ++ d.version ++ "-" ++ osAndArch)
      ("https://github.com/" ++ repo ++ "/releases/download/" ++ tagPart ++ d.version
        ++ "/" ++ d.name ++ "-v" ++ d.version ++ "-" ++ osAndArch ++ ".7z")
      checksum

/-- Lines 281-311 of the source (`DownloadFpm`); the names passed on never
match a special case, so the recursive call is the generic body. -/
def DownloadFpm (env : Env) : Outcome × List Event :=
  if env.goos = "linux" then
    let checksum :=
      if env.goarch = "amd64" then
        "fcKdXPJSso3xFs5JyIJHG1TfHIRTGDP0xhSBGZl7pPZlz4/TJ4rD/q3wtO/uaBBYeX0qFFQAFjgu1uJ6HLHghA=="
      else
        "OnzvBdsHE5djcXcAT87rwbnZwS789ZAd2ehuIO42JWtBAHNzXKxV4o/24XFX5No4DJWGO2YSGQttW+zn7d/4rQ=="
    let archSfx := if env.goarch = "amd64" then "-x86_64" else "-x86"
    let name := "fpm-1.9.3-2.3.1-linux" ++ archSfx
    downloadArtifactRaw env name
      ("https://github.com/electron-userland/electron-builder-binaries/releases/download/"
        ++ name ++ "/" ++ name ++ ".7z")
      checksum
  else
    downloadArtifactRaw env "fpm-1.9.3-20150715-2.2.2-mac"
      "https://github.com/electron-userland/electron-builder-binaries/releases/download/fpm-1.9.3-20150715-2.2.2-mac/fpm-1.9.3-20150715-2.2.2-mac.7z"
      "oXfq+0H2SbdrbMik07mYloAZ8uHrmf6IJk+Q3P1kwywuZnKTXSaaeZUJNlWoVpRDWNu537YxxpBQWuTcF+6xfw=="

/-- Lines 313-327 of the source: the zstd tool descriptor. -/
def zstdDescriptor : ToolDescriptor where
  name := "zstd"
  version := "1.3.4"
  repository := ""
  mac := "pLrLk2FAkop3C2drZ7+oxyGPQJjNMzUmVf0m3ZCc1a3WIEjYJNpq9UYvfBU/dl2CsRAchlKvoIOWRxRIdX0ugA=="
  linux := [("x64", "C1TcuuN/0nNvHMwfkKmE8rgsDxkeSbGoV4DMSf4kIJIO4mNp+PUayYeBf4h3usScsWfvX70Jvg5v3yt1FySTDg==")]
  win := [("ia32", "URJhIibWZUEy9USYlHBjc6bgEp7KP+hMJl/YWsssMTt6umxgk+niyc5meKs2XwOwBsvK6KsP+Qr/BawK7CdWVQ=="),
          ("x64", "S4RtWJwccUQfr/UQeZuWTJyJvU5uaYaP3rGT6e55epuAJx+fuljbJTBw+n8da0oRLIw0essEjGHkNafWgmKt1w==")]

/-- `DownloadZstd` from the source. -/
def DownloadZstd (env : Env) (osName : String) : Outcome × List Event :=
  DownloadTool env zstdDescriptor osName

/-- `DownloadArtifact` from the source: the `fpm` / `zstd` special names are
routed through the tool catalog, everything else through the generic body. -/
def DownloadArtifact (env : Env) (dirName url checksum : String) :
    Outcome × List Event :=
  if dirName = "fpm" then DownloadFpm env
  else if dirName = "zstd" then DownloadZstd env env.goos
  else downloadArtifactRaw env dirName url checksum

/-- Lines 201-249 of the source (`DownloadCompressedArtifact`): cache one
downloaded file by URL basename; a failing final rename is returned as a
fatal error. -/
def DownloadCompressedArtifact (env : Env) (subDir url checksum : String) :
    Outcome × List Event :=
  match GetCacheDirectory env "electron-builder" with
  | .error e => (.err e, [])
  | .ok cacheRoot =>
    let cacheDir := if subDir ≠ "" then joinPath cacheRoot subDir else cacheRoot
    let filePath := joinPath cacheDir (pathBase url)
    match env.stat filePath with
    | .found _ => (.ok filePath, [.stat filePath])
    | .errOther m =>
      (.err ("error during cache check for path " ++ filePath ++ ": " ++ m), [.stat filePath])
    | .notExist =>
      match env.mkdirAll cacheDir with
      | .error e => (.err e, [.stat filePath, .mkdirAll cacheDir])
      | .ok _ =>
        match env.tempFile cacheDir ".snap" with
        | .error e => (.err e, [.stat filePath, .mkdirAll cacheDir, .tempFile cacheDir ".snap"])
        | .ok tf =>
          match env.download url tf checksum with
          | .error e =>
            (.err e,
              [.stat filePath, .mkdirAll cacheDir, .tempFile cacheDir ".snap",
                .download url tf checksum])
          | .ok _ =>
            match env.rename tf filePath with
            | .error e =>
              (.err e,
                [.stat filePath, .mkdirAll cacheDir, .tempFile cacheDir ".snap",
                  .download url tf checksum, .rename tf filePath])
            | .ok _ =>
              (.ok filePath,
                [.stat filePath, .mkdirAll cacheDir, .tempFile cacheDir ".snap",
                  .download url tf checksum, .rename tf filePath])

/-! ### Concrete environments used to instantiate the theorems -/

/-- A Linux/amd64 environment with a cache-override root `/cache` in which
every external effect succeeds. -/
def envBase : Env where
  goos := "linux"
  goarch := "amd64"
  cacheOverrideEnv := "/cache"
  localAppData := ""
  username := ""
  osTempDir := "/tmp"
  homeDir := .ok "/home/u"
  stat := fun _ => .notExist
  mkdirAll := fun _ => .ok ()
  tempDir := fun d => .ok (d ++ "/t123")
  tempFile := fun d _ => .ok (d ++ "/tf123.snap")
  download := fun _ _ _ => .ok ()
  run7zExtract := fun _ _ => .ok ""
  runTarXzUnpack := fun _ _ => .ok ()
  remove := fun _ => .ok
  rename := fun _ _ => .ok ()

/-- `envBase` where every rename fails, as when a concurrent agent already
published the destination. -/
def envRenameFail : Env :=
  { envBase with rename := fun _ _ => .error "EEXIST" }

/-- `envBase` where the temp archive is already gone when `os.Remove` runs,
so `os.Remove` returns its ENOENT error. -/
def envRemoveGone : Env :=
  { envBase with remove := fun _ => .errNotExist }

/-- `envBase` where every `os.Stat` fails with a non-ENOENT error. -/
def envStatErr : Env :=
  { envBase with stat := fun _ => .errOther "permission denied" }

/-- `envBase` where the final path already exists as a directory. -/
def envHit : Env :=
  { envBase with stat := fun _ => .found true }

/-- `envBase` on an architecture absent from every checksum table. -/
def envArchRiscv : Env :=
  { envBase with goarch := "riscv64" }

/-- `envBase` without a cache override, on Linux without `LOCALAPPDATA`. -/
def envFallback : Env :=
  { envBase with cacheOverrideEnv := "" }

/-- `envFallback` on macOS. -/
def envDarwin : Env :=
  { envFallback with goos := "darwin" }

/-! ### Helper lemmas -/

theorem str_data_append (a b : String) : (a ++ b).data = a.data ++ b.data := by
  cases a; cases b; rfl

theorem append_ne_empty_left (a b : String) (h : a.data ≠ []) : a ++ b ≠ "" := by
  intro he
  have h2 : (a ++ b).data = ([] : List Char) := by rw [he]
  rw [str_data_append] at h2
  exact h (List.append_eq_nil.mp h2).1

/-- A URL that ends in `.tar.xz` never takes the `.tar.7z` publish branch. -/
theorem tarxz_not_tar7z (s : String) : hasSuffixStr (s ++ ".tar.xz") ".tar.7z" = false := by
  have hdata : (s ++ ".tar.xz").data = s.data ++ ".tar.xz".data := str_data_append s _
  unfold hasSuffixStr
  rw [hdata, List.reverse_append]
  show listIsPfx ['z', '7', '.', 'r', 'a', 't', '.']
      ('z' :: 'x' :: '.' :: 'r' :: 'a' :: 't' :: '.' :: s.data.reverse) = false
  simp only [listIsPfx]
  rw [show (('7' : Char) == 'x') = false from rfl]
  simp

theorem publishArtifact_fst (env : Env) (t url fp : String) :
    (publishArtifact env t url fp).1 = .ok fp := by
  unfold publishArtifact
  dsimp only
  split <;> split <;> rfl

theorem publishArtifact_warn (env : Env) (t url fp : String)
    (hA : ∃ e, env.rename t fp = .error e)
    (hB : ∃ e, env.rename (joinPath t (pathBase t)) fp = .error e) :
    Event.warn warnRaceMsg ∈ (publishArtifact env t url fp).2 := by
  obtain ⟨eA, hA⟩ := hA
  obtain ⟨eB, hB⟩ := hB
  unfold publishArtifact
  dsimp only
  split
  · rw [hB]; simp
  · rw [hA]; simp

theorem publishArtifact_no_download (env : Env) (t url fp u2 a2 c2 : String) :
    Event.download u2 a2 c2 ∉ (publishArtifact env t url fp).2 := by
  unfold publishArtifact
  dsimp only
  split <;> split <;> simp

theorem removeThenPublish_ok (env : Env) (a t url fp : String)
    (hrm : env.remove a = .ok) :
    (removeThenPublish env a t url fp).1 = .ok fp := by
  unfold removeThenPublish
  rw [hrm]
  exact publishArtifact_fst env t url fp

theorem removeThenPublish_warn (env : Env) (a t url fp : String)
    (hrm : env.remove a = .ok)
    (hA : ∃ e, env.rename t fp = .error e)
    (hB : ∃ e, env.rename (joinPath t (pathBase t)) fp = .error e) :
    Event.warn warnRaceMsg ∈ (removeThenPublish env a t url fp).2 := by
  unfold removeThenPublish
  rw [hrm]
  exact List.mem_cons_of_mem _ (publishArtifact_warn env t url fp hA hB)

theorem removeThenPublish_no_download (env : Env) (a t url fp u2 a2 c2 : String) :
    Event.download u2 a2 c2 ∉ (removeThenPublish env a t url fp).2 := by
  unfold removeThenPublish
  split
  · simp
  · simp
  · intro h
    rcases List.mem_cons.mp h with h | h
    · exact Event.noConfusion h
    · exact publishArtifact_no_download env t url fp u2 a2 c2 h

theorem acquireArtifact_snd_cons (env : Env) (b : Bool) (cd fp u c : String) :
    ∃ es, (acquireArtifact env b cd fp u c).2 = Event.mkdirAll cd :: es := by
  unfold acquireArtifact
  dsimp only
  split
  · exact ⟨_, rfl⟩
  · split
    · exact ⟨_, rfl⟩
    · split
      · exact ⟨_, rfl⟩
      · split
        · exact ⟨_, rfl⟩
        · exact ⟨_, rfl⟩

theorem acquireArtifact_download_mem (env : Env) (b : Bool) (cd fp u c u2 a2 c2 : String)
    (h : Event.download u2 a2 c2 ∈ (acquireArtifact env b cd fp u c).2) :
    u2 = u ∧ c2 = c := by
  unfold acquireArtifact at h
  dsimp only at h
  split at h
  · simp at h
  · split at h
    · simp at h
    · split at h
      · simp at h
        exact ⟨h.1, h.2.2⟩
      · split at h
        · simp at h
          rcases h with ⟨h1, _, h3⟩ | h
          · exact ⟨h1, h3⟩
          · exact absurd h (by cases b <;> simp [unpackStep])
        · simp at h
          rcases h with ⟨h1, _, h3⟩ | h | h
          · exact ⟨h1, h3⟩
          · exact absurd h (by cases b <;> simp [unpackStep])
          · exact absurd h (removeThenPublish_no_download env _ _ u fp u2 a2 c2)

theorem unpackStep_fst_ok (env : Env) (b : Bool) (t : String)
    (hupx : env.runTarXzUnpack (t ++ ".tar.xz") t = .ok ())
    (hup7 : ∃ out, env.run7zExtract (t ++ ".7z") t = .ok out) :
    (unpackStep env b (t ++ archiveSfxFor b) t).1 = .ok () := by
  obtain ⟨out, hout⟩ := hup7
  cases b
  · show (env.run7zExtract (t ++ ".7z") t).map (fun _ => ()) = Except.ok ()
    rw [hout]; rfl
  · exact hupx

/-- After a cache miss in which every step up to the archive deletion
succeeds, the acquisition reaches the publish step; the result is the final
path whatever the rename did, and a failed rename leaves a warning in the
trace. -/
theorem acquireArtifact_publish (env : Env) (b : Bool) (cd fp u c t : String)
    (hmk : env.mkdirAll cd = .ok ())
    (ht : env.tempDir cd = .ok t)
    (hdl : env.download u (t ++ archiveSfxFor b) c = .ok ())
    (hupx : env.runTarXzUnpack (t ++ ".tar.xz") t = .ok ())
    (hup7 : ∃ out, env.run7zExtract (t ++ ".7z") t = .ok out)
    (hrm : env.remove (t ++ archiveSfxFor b) = .ok) :
    (acquireArtifact env b cd fp u c).1 = .ok fp
    ∧ ((∃ e, env.rename t fp = .error e) →
        (∃ e, env.rename (joinPath t (pathBase t)) fp = .error e) →
        Event.warn warnRaceMsg ∈ (acquireArtifact env b cd fp u c).2) := by
  have hunp := unpackStep_fst_ok env b t hupx hup7
  constructor
  · unfold acquireArtifact
    rw [hmk, ht]
    dsimp only
    rw [hdl]
    dsimp only
    rw [hunp]
    dsimp only
    exact removeThenPublish_ok env _ t u fp hrm
  · intro hA hB
    unfold acquireArtifact
    rw [hmk, ht]
    dsimp only
    rw [hdl]
    dsimp only
    rw [hunp]
    dsimp only
    exact List.mem_append.mpr (.inr (removeThenPublish_warn env _ t u fp hrm hA hB))

/-- Any failure of the archive deletion, the file-already-gone ENOENT error
included, aborts the acquisition with an error. -/
theorem acquireArtifact_remove_fatal (env : Env) (b : Bool) (cd fp u c t : String)
    (hmk : env.mkdirAll cd = .ok ())
    (ht : env.tempDir cd = .ok t)
    (hdl : env.download u (t ++ archiveSfxFor b) c = .ok ())
    (hupx : env.runTarXzUnpack (t ++ ".tar.xz") t = .ok ())
    (hup7 : ∃ out, env.run7zExtract (t ++ ".7z") t = .ok out) :
    (env.remove (t ++ archiveSfxFor b) = .errNotExist →
      (acquireArtifact env b cd fp u c).1 =
        .err ("remove " ++ (t ++ archiveSfxFor b) ++ ": no such file or directory"))
    ∧ (∀ m, env.remove (t ++ archiveSfxFor b) = .errOther m →
      (acquireArtifact env b cd fp u c).1 = .err m) := by
  have hunp := unpackStep_fst_ok env b t hupx hup7
  constructor
  · intro hrm
    unfold acquireArtifact
    rw [hmk, ht]
    dsimp only
    rw [hdl]
    dsimp only
    rw [hunp]
    dsimp only
    unfold removeThenPublish
    rw [hrm]
  · intro m hrm
    unfold acquireArtifact
    rw [hmk, ht]
    dsimp only
    rw [hdl]
    dsimp only
    rw [hunp]
    dsimp only
    unfold removeThenPublish
    rw [hrm]

/-- A generic request (no special-cased name, Node.js guard satisfied) whose
final path is absent reduces to the staged acquisition prefixed by the cache
stat. -/
theorem downloadArtifact_eq_acquire (env : Env) (dirName url checksum root : String)
    (hf : dirName ≠ "fpm") (hz : dirName ≠ "zstd")
    (hn : dirName = "node" → 0 ≤ goIndex url "-")
    (hroot : GetCacheDirectory env "electron-builder" = .ok root)
    (hstat : env.stat (finalPathFor root (effectiveDirName dirName url)) = .notExist) :
    DownloadArtifact env dirName url checksum =
      ((acquireArtifact env (dirName = "node")
          (familyCacheDir root (effectiveDirName dirName url))
          (finalPathFor root (effectiveDirName dirName url))
          (effectiveUrl dirName url) checksum).1,
        Event.stat (finalPathFor root (effectiveDirName dirName url)) ::
          (acquireArtifact env (dirName = "node")
            (familyCacheDir root (effectiveDirName dirName url))
            (finalPathFor root (effectiveDirName dirName url))
            (effectiveUrl dirName url) checksum).2) := by
  have hguard : ¬(dirName = "node" ∧ goIndex url "-" < 0) := by
    rintro ⟨h1, h2⟩
    exact absurd h2 (not_lt.mpr (hn h1))
  unfold DownloadArtifact downloadArtifactRaw
  rw [if_neg hf, if_neg hz, if_neg hguard, hroot]
  dsimp only
  rw [hstat]

theorem downloadArtifactRaw_download_mem (env : Env) (dn u c u2 a2 c2 : String)
    (h : Event.download u2 a2 c2 ∈ (downloadArtifactRaw env dn u c).2) :
    u2 = effectiveUrl dn u ∧ c2 = c := by
  unfold downloadArtifactRaw at h
  dsimp only at h
  split at h
  · simp at h
  · split at h
    · simp at h
    · split at h
      · split at h
        · simp at h
        · rcases List.mem_cons.mp h with h | h
          · exact absurd h (by simp)
          · exact acquireArtifact_download_mem env _ _ _ _ c u2 a2 c2 h
      · simp at h
      · rcases List.mem_cons.mp h with h | h
        · exact absurd h (by simp)
        · exact acquireArtifact_download_mem env _ _ _ _ c u2 a2 c2 h

/-! ### Claims -/

/-- Claim C1: if the final rename of the fully populated temporary directory
into the final path fails (for example because a concurrent agent already
published the destination), `DownloadArtifact` logs a warning but still
returns the final path with a nil error: for every request that reaches the
publish step, a rename failure never turns the overall result into an
error. -/
theorem c1_publish_rename_failure_still_succeeds (env : Env)
    (dirName url checksum root t : String)
    (hf : dirName ≠ "fpm") (hz : dirName ≠ "zstd")
    (hn : dirName = "node" → 0 ≤ goIndex url "-")
    (hroot : GetCacheDirectory env "electron-builder" = .ok root)
    (hstat : env.stat (finalPathFor root (effectiveDirName dirName url)) = .notExist)
    (hmk : env.mkdirAll (familyCacheDir root (effectiveDirName dirName url)) = .ok ())
    (ht : env.tempDir (familyCacheDir root (effectiveDirName dirName url)) = .ok t)
    (hdl : env.download (effectiveUrl dirName url)
      (t ++ archiveSfxFor (dirName = "node")) checksum = .ok ())
    (hupx : env.runTarXzUnpack (t ++ ".tar.xz") t = .ok ())
    (hup7 : ∃ out, env.run7zExtract (t ++ ".7z") t = .ok out)
    (hrm : env.remove (t ++ archiveSfxFor (dirName = "node")) = .ok)
    (hrenA : ∃ e, env.rename t (finalPathFor root (effectiveDirName dirName url)) = .error e)
    (hrenB : ∃ e, env.rename (joinPath t (pathBase t))
      (finalPathFor root (effectiveDirName dirName url)) = .error e) :
    (DownloadArtifact env dirName url checksum).1 =
      .ok (finalPathFor root (effectiveDirName dirName url))
    ∧ Event.warn warnRaceMsg ∈ (DownloadArtifact env dirName url checksum).2 := by
  rw [downloadArtifact_eq_acquire env dirName url checksum root hf hz hn hroot hstat]
  have h := acquireArtifact_publish env (dirName = "node")
    (familyCacheDir root (effectiveDirName dirName url))
    (finalPathFor root (effectiveDirName dirName url))
    (effectiveUrl dirName url) checksum t hmk ht hdl hupx hup7 hrm
  exact ⟨h.1, List.mem_cons_of_mem _ (h.2 hrenA hrenB)⟩

/-- Witness for C1 at a concrete environment where the publish rename
fails. -/
theorem c1_witness :
    (DownloadArtifact envRenameFail "alpha" "http://x/y.7z" "").1 =
      .ok (finalPathFor "/cache" (effectiveDirName "alpha" "http://x/y.7z"))
    ∧ Event.warn warnRaceMsg ∈ (DownloadArtifact envRenameFail "alpha" "http://x/y.7z" "").2 :=
  c1_publish_rename_failure_still_succeeds envRenameFail "alpha" "http://x/y.7z" ""
    "/cache" "/cache/alpha/t123" (by decide) (by decide) (by decide) rfl rfl rfl rfl rfl rfl
    ⟨"", rfl⟩ rfl ⟨"EEXIST", rfl⟩ ⟨"EEXIST", rfl⟩

/-- Claim C2 as stated is false on the code: in `envRemoveGone` the temp
archive is already gone when the deletion step runs (`os.Remove` yields its
ENOENT error), and `DownloadArtifact` returns an error rather than
succeeding. -/
theorem c2_counterexample :
    envRemoveGone.remove "/cache/abc/t123.7z" = .errNotExist
    ∧ (DownloadArtifact envRemoveGone "abc" "http://x/y.7z" "").1 =
        .err "remove /cache/abc/t123.7z: no such file or directory" :=
  ⟨rfl, by decide⟩

/-- Claim C2 (amended): after unpacking succeeds, `DownloadArtifact` deletes
the consumed temp archive file, and any failure of that deletion is fatal —
including the case in which the archive file is already gone, since
`os.Remove` reports an error for a missing file. -/
theorem c2_archive_remove_failure_fatal (env : Env)
    (dirName url checksum root t : String)
    (hf : dirName ≠ "fpm") (hz : dirName ≠ "zstd")
    (hn : dirName = "node" → 0 ≤ goIndex url "-")
    (hroot : GetCacheDirectory env "electron-builder" = .ok root)
    (hstat : env.stat (finalPathFor root (effectiveDirName dirName url)) = .notExist)
    (hmk : env.mkdirAll (familyCacheDir root (effectiveDirName dirName url)) = .ok ())
    (ht : env.tempDir (familyCacheDir root (effectiveDirName dirName url)) = .ok t)
    (hdl : env.download (effectiveUrl dirName url)
      (t ++ archiveSfxFor (dirName = "node")) checksum = .ok ())
    (hupx : env.runTarXzUnpack (t ++ ".tar.xz") t = .ok ())
    (hup7 : ∃ out, env.run7zExtract (t ++ ".7z") t = .ok out) :
    (env.remove (t ++ archiveSfxFor (dirName = "node")) = .errNotExist →
      (DownloadArtifact env dirName url checksum).1 =
        .err ("remove " ++ (t ++ archiveSfxFor (dirName = "node"))
          ++ ": no such file or directory"))
    ∧ (∀ m, env.remove (t ++ archiveSfxFor (dirName = "node")) = .errOther m →
      (DownloadArtifact env dirName url checksum).1 = .err m) := by
  rw [downloadArtifact_eq_acquire env dirName url checksum root hf hz hn hroot hstat]
  exact acquireArtifact_remove_fatal env (dirName = "node")
    (familyCacheDir root (effectiveDirName dirName url))
    (finalPathFor root (effectiveDirName dirName url))
    (effectiveUrl dirName url) checksum t hmk ht hdl hupx hup7

/-- Witness for the amended C2. -/
theorem c2_witness :
    envRemoveGone.remove ("/cache/abc/t123" ++ archiveSfxFor ("abc" = "node")) = .errNotExist
    ∧ (DownloadArtifact envRemoveGone "abc" "http://x/y.7z" "").1 =
        .err ("remove " ++ ("/cache/abc/t123" ++ archiveSfxFor ("abc" = "node"))
          ++ ": no such file or directory") :=
  ⟨rfl, (c2_archive_remove_failure_fatal envRemoveGone "abc" "http://x/y.7z" ""
    "/cache" "/cache/abc/t123" (by decide) (by decide) (by decide) rfl rfl rfl rfl rfl rfl
    ⟨"", rfl⟩).1 rfl⟩

/-- Claim C3 is wrong about its `zstd` example: the request name `"zstd"` is
intercepted by the tool catalog, so on Linux/amd64 it yields
`cacheRoot/zstd/zstd-1.3.4-linux-x64`, not `cacheRoot/zstd/zstd`. -/
theorem c3_counterexample :
    (DownloadArtifact envBase "zstd" "unused" "").1 =
      .ok "/cache/zstd/zstd-1.3.4-linux-x64"
    ∧ ("/cache/zstd/zstd-1.3.4-linux-x64" : String) ≠ "/cache/zstd/zstd" :=
  ⟨by decide, by decide⟩

/-- Claim C3 (amended): for every derived cache directory name the computed
final path follows the family-grouping rule — a hyphen after at least one
character groups under the prefix before the first hyphen, no hyphen groups
the name under itself — and in particular `"fpm-1.9.3-2.3.1-linux-x86_64"`
lands in the `fpm` family.  The request name `"zstd"`, however, is
intercepted by the tool catalog before this rule applies. -/
theorem c3_family_grouping (root dn : String) :
    (0 < goIndex dn "-" →
      finalPathFor root dn = joinPath (joinPath root (goTake dn (goIndex dn "-"))) dn)
    ∧ (goIndex dn "-" = -1 →
      finalPathFor root dn = joinPath (joinPath root dn) dn)
    ∧ finalPathFor root "fpm-1.9.3-2.3.1-linux-x86_64" =
        joinPath (joinPath root "fpm") "fpm-1.9.3-2.3.1-linux-x86_64" := by
  refine ⟨fun h => ?_, fun h => ?_, ?_⟩
  · unfold finalPathFor familyCacheDir
    rw [if_pos h]
  · unfold finalPathFor familyCacheDir
    rw [if_neg (by rw [h]; decide)]
  · unfold finalPathFor familyCacheDir
    rw [if_pos (by decide : goIndex "fpm-1.9.3-2.3.1-linux-x86_64" "-" > 0),
      show goTake "fpm-1.9.3-2.3.1-linux-x86_64" (goIndex "fpm-1.9.3-2.3.1-linux-x86_64" "-")
        = "fpm" from by decide]

/-- Witness for the amended C3. -/
theorem c3_witness :
    0 < goIndex "fpm-1.9.3-2.3.1-linux-x86_64" "-"
    ∧ finalPathFor "/cache" "fpm-1.9.3-2.3.1-linux-x86_64" =
        joinPath (joinPath "/cache"
          (goTake "fpm-1.9.3-2.3.1-linux-x86_64" (goIndex "fpm-1.9.3-2.3.1-linux-x86_64" "-")))
          "fpm-1.9.3-2.3.1-linux-x86_64" :=
  ⟨by decide, (c3_family_grouping "/cache" "fpm-1.9.3-2.3.1-linux-x86_64").1 (by decide)⟩

/-- Claim C7: with no cache-override set, on an OS that is neither macOS nor
Windows-with-`LOCALAPPDATA`, `GetCacheDirectory` returns
`<home>/.cache/electron-builder` for every value of its namespace parameter,
unlike the macOS branch which returns `<home>/Library/Caches/<namespace>`. -/
theorem c7_fallback_ignores_namespace (env : Env) (home : String)
    (hov : env.cacheOverrideEnv = "")
    (hos : env.goos ≠ "darwin")
    (hwin : ¬(env.goos = "windows" ∧ env.localAppData ≠ ""))
    (hhome : env.homeDir = .ok home) :
    (∀ ns, GetCacheDirectory env ns =
      .ok (joinPath (joinPath home ".cache") "electron-builder"))
    ∧ (∀ env2 home2 ns, env2.cacheOverrideEnv = "" → env2.goos = "darwin" →
        env2.homeDir = .ok home2 →
        GetCacheDirectory env2 ns =
          .ok (joinPath (joinPath (joinPath home2 "Library") "Caches") ns)) := by
  constructor
  · intro ns
    unfold GetCacheDirectory
    rw [if_neg (by simp [hov]), if_neg hos, if_neg hwin, hhome]
    rfl
  · intro env2 home2 ns h1 h2 h3
    unfold GetCacheDirectory
    rw [if_neg (by simp [h1]), if_pos h2, h3]
    rfl

/-- Witness for C7: two namespaces, same fallback path; the macOS branch
uses the namespace. -/
theorem c7_witness :
    GetCacheDirectory envFallback "some-namespace" =
      .ok (joinPath (joinPath "/home/u" ".cache") "electron-builder")
    ∧ GetCacheDirectory envDarwin "some-namespace" =
      .ok (joinPath (joinPath (joinPath "/home/u" "Library") "Caches") "some-namespace") :=
  ⟨(c7_fallback_ignores_namespace envFallback "/home/u" rfl (by decide) (by decide) rfl).1
      "some-namespace",
    (c7_fallback_ignores_namespace envFallback "/home/u" rfl (by decide) (by decide) rfl).2
      envDarwin "/home/u" "some-namespace" rfl rfl rfl⟩

/-- Claim C9: a `"node"` request whose url token contains no hyphen panics
with an out-of-range slice error instead of returning an error value. -/
theorem c9_node_url_without_hyphen_panics (env : Env) (url checksum : String)
    (h : goIndex url "-" = -1) :
    DownloadArtifact env "node" url checksum =
      (.panic "runtime error: slice bounds out of range [:-1]", []) := by
  unfold DownloadArtifact downloadArtifactRaw
  rw [if_neg (by decide : ("node" : String) ≠ "fpm"),
    if_neg (by decide : ("node" : String) ≠ "zstd"),
    if_pos (⟨rfl, by rw [h]; decide⟩ : ("node" : String) = "node" ∧ goIndex url "-" < 0)]

/-- Witness for C9 at the hyphen-free token `"latest"`. -/
theorem c9_witness :
    goIndex "latest" "-" = -1
    ∧ DownloadArtifact envBase "node" "latest" "" =
        (.panic "runtime error: slice bounds out of range [:-1]", []) :=
  ⟨by decide, c9_node_url_without_hyphen_panics envBase "latest" "" (by decide)⟩

/-- Claim C4: cache lookup in `DownloadArtifact` reports a hit exactly when
the final path exists and is either a directory or has the known archive
suffix (literally `.tar` in the code), and on a hit the function returns the
final path immediately — its whole trace is the single stat, so no checksum
verification, download or unpack step is performed. -/
theorem c4_cache_hit_iff (env : Env) (dirName url checksum root : String)
    (hf : dirName ≠ "fpm") (hz : dirName ≠ "zstd")
    (hn : dirName = "node" → 0 ≤ goIndex url "-")
    (hroot : GetCacheDirectory env "electron-builder" = .ok root) :
    ((DownloadArtifact env dirName url checksum =
        (.ok (finalPathFor root (effectiveDirName dirName url)),
          [Event.stat (finalPathFor root (effectiveDirName dirName url))]))
      ↔ (∃ d, env.stat (finalPathFor root (effectiveDirName dirName url)) = .found d
          ∧ (d = true
            ∨ hasSuffixStr (finalPathFor root (effectiveDirName dirName url)) ".tar" = true)))
    ∧ (∀ d, env.stat (finalPathFor root (effectiveDirName dirName url)) = .found d →
        (d = true
          ∨ hasSuffixStr (finalPathFor root (effectiveDirName dirName url)) ".tar" = true) →
        ∀ u2 a2 c2,
          Event.download u2 a2 c2 ∉ (DownloadArtifact env dirName url checksum).2) := by
  have hguard : ¬(dirName = "node" ∧ goIndex url "-" < 0) := by
    rintro ⟨h1, h2⟩
    exact absurd h2 (not_lt.mpr (hn h1))
  have hfwd : ∀ d, env.stat (finalPathFor root (effectiveDirName dirName url)) = .found d →
      (d = true
        ∨ hasSuffixStr (finalPathFor root (effectiveDirName dirName url)) ".tar" = true) →
      DownloadArtifact env dirName url checksum =
        (.ok (finalPathFor root (effectiveDirName dirName url)),
          [Event.stat (finalPathFor root (effectiveDirName dirName url))]) := by
    intro d hstat hcond
    unfold DownloadArtifact downloadArtifactRaw
    rw [if_neg hf, if_neg hz, if_neg hguard, hroot]
    dsimp only
    rw [hstat]
    dsimp only
    rw [if_pos (by rcases hcond with h | h <;> simp [h])]
  constructor
  · constructor
    · intro hEq
      rcases hstat : env.stat (finalPathFor root (effectiveDirName dirName url)) with d | _ | m
      · by_cases hcond : (d || hasSuffixStr (finalPathFor root (effectiveDirName dirName url))
            ".tar") = true
        · exact ⟨d, rfl, by simpa using hcond⟩
        · exfalso
          unfold DownloadArtifact downloadArtifactRaw at hEq
          rw [if_neg hf, if_neg hz, if_neg hguard, hroot] at hEq
          dsimp only at hEq
          rw [hstat] at hEq
          dsimp only at hEq
          rw [if_neg hcond] at hEq
          obtain ⟨es, hes⟩ := acquireArtifact_snd_cons env (dirName = "node")
            (familyCacheDir root (effectiveDirName dirName url))
            (finalPathFor root (effectiveDirName dirName url))
            (effectiveUrl dirName url) checksum
          have h2 := congrArg Prod.snd hEq
          dsimp only at h2
          rw [hes] at h2
          simp at h2
      · exfalso
        rw [downloadArtifact_eq_acquire env dirName url checksum root hf hz hn hroot hstat]
          at hEq
        obtain ⟨es, hes⟩ := acquireArtifact_snd_cons env (dirName = "node")
          (familyCacheDir root (effectiveDirName dirName url))
          (finalPathFor root (effectiveDirName dirName url))
          (effectiveUrl dirName url) checksum
        have h2 := congrArg Prod.snd hEq
        dsimp only at h2
        rw [hes] at h2
        simp at h2
      · exfalso
        unfold DownloadArtifact downloadArtifactRaw at hEq
        rw [if_neg hf, if_neg hz, if_neg hguard, hroot] at hEq
        dsimp only at hEq
        rw [hstat] at hEq
        have h2 := congrArg Prod.fst hEq
        simp at h2
    · rintro ⟨d, hstat, hcond⟩
      exact hfwd d hstat hcond
  · intro d hstat hcond u2 a2 c2
    rw [hfwd d hstat hcond]
    simp

/-- Witness for C4: a directory at the final path is a hit returning the
path with a one-stat trace. -/
theorem c4_witness :
    DownloadArtifact envHit "alpha" "http://x/y.7z" "" =
      (.ok (finalPathFor "/cache" (effectiveDirName "alpha" "http://x/y.7z")),
        [Event.stat (finalPathFor "/cache" (effectiveDirName "alpha" "http://x/y.7z"))]) :=
  ((c4_cache_hit_iff envHit "alpha" "http://x/y.7z" "" "/cache"
      (by decide) (by decide) (by decide) rfl).1).mpr ⟨true, rfl, Or.inl rfl⟩

/-- Claim C5: `DownloadTool` fails with the configuration error, before any
download, whenever no checksum is registered for the current platform/arch
pair (the runtime architecture being normalized first); any download event
it ever emits carries the non-empty registered checksum. -/
theorem c5_tool_checksum_guard (env : Env) (d : ToolDescriptor) (osName : String) :
    (toolChecksum d osName (normalizeArch env.goarch) = "" →
      DownloadTool env d osName =
        (.err ("Checksum not specified for " ++ osName ++ ":" ++ normalizeArch env.goarch),
          []))
    ∧ (∀ u a c, Event.download u a c ∈ (DownloadTool env d osName).2 →
        toolChecksum d osName (normalizeArch env.goarch) ≠ ""
        ∧ c = toolChecksum d osName (normalizeArch env.goarch)) := by
  constructor
  · intro h
    unfold DownloadTool
    dsimp only
    rw [if_pos h]
  · intro u a c hmem
    by_cases h : toolChecksum d osName (normalizeArch env.goarch) = ""
    · exfalso
      unfold DownloadTool at hmem
      dsimp only at hmem
      rw [if_pos h] at hmem
      simp at hmem
    · refine ⟨h, ?_⟩
      unfold DownloadTool at hmem
      dsimp only at hmem
      rw [if_neg h] at hmem
      exact (downloadArtifactRaw_download_mem env _ _ _ u a c hmem).2

/-- Witness for C5: on an architecture absent from the zstd tables the call
is the configuration error with an empty trace. -/
theorem c5_witness :
    toolChecksum zstdDescriptor "linux" (normalizeArch envArchRiscv.goarch) = ""
    ∧ DownloadTool envArchRiscv zstdDescriptor "linux" =
        (.err ("Checksum not specified for " ++ "linux" ++ ":"
          ++ normalizeArch envArchRiscv.goarch), []) :=
  ⟨by decide, (c5_tool_checksum_guard envArchRiscv zstdDescriptor "linux").1 (by decide)⟩

/-- Claim C6: for a `"node"` request the url argument is a
version-and-architecture token — the download URL becomes the nodejs.org
template with the token's prefix up to its first hyphen as version, the
cache directory name becomes `node-` + token, and the streaming `.tar.xz`
unpack strategy with the `.tar.xz` temp-archive suffix is used instead of
the default `.7z` one, as the full event trace shows. -/
theorem c6_node_request_pipeline (env : Env) (url checksum root t : String)
    (hcontains : 0 ≤ goIndex url "-")
    (hroot : GetCacheDirectory env "electron-builder" = .ok root)
    (hstat : env.stat (finalPathFor root (effectiveDirName "node" url)) = .notExist)
    (hmk : env.mkdirAll (familyCacheDir root (effectiveDirName "node" url)) = .ok ())
    (ht : env.tempDir (familyCacheDir root (effectiveDirName "node" url)) = .ok t)
    (hdl : env.download (nodeUrl url) (t ++ ".tar.xz") checksum = .ok ())
    (hupx : env.runTarXzUnpack (t ++ ".tar.xz") t = .ok ())
    (hrm : env.remove (t ++ ".tar.xz") = .ok)
    (hren : env.rename t (finalPathFor root (effectiveDirName "node" url)) = .ok ()) :
    DownloadArtifact env "node" url checksum =
      (.ok (finalPathFor root (effectiveDirName "node" url)),
        [Event.stat (finalPathFor root (effectiveDirName "node" url)),
          Event.mkdirAll (familyCacheDir root (effectiveDirName "node" url)),
          Event.tempDir (familyCacheDir root (effectiveDirName "node" url)),
          Event.download (nodeUrl url) (t ++ ".tar.xz") checksum,
          Event.unpackTarXz (t ++ ".tar.xz") t,
          Event.remove (t ++ ".tar.xz"),
          Event.rename t (finalPathFor root (effectiveDirName "node" url))])
    ∧ effectiveDirName "node" url = "node-" ++ url
    ∧ nodeUrl url = "https://nodejs.org/dist/v" ++ goTake url (goIndex url "-")
        ++ "/node-v" ++ url ++ ".tar.xz" := by
  refine ⟨?_, ?_, rfl⟩
  · rw [downloadArtifact_eq_acquire env "node" url checksum root (by decide) (by decide)
      (fun _ => hcontains) hroot hstat]
    unfold acquireArtifact
    simp only [show (decide (("node" : String) = "node")) = true from rfl,
      show (decide True) = true from rfl]
    rw [hmk, ht]
    dsimp only
    simp only [show effectiveUrl "node" url = nodeUrl url from rfl,
      show archiveSfxFor true = ".tar.xz" from rfl]
    rw [hdl]
    dsimp only
    simp only [show unpackStep env true (t ++ ".tar.xz") t =
      (env.runTarXzUnpack (t ++ ".tar.xz") t, Event.unpackTarXz (t ++ ".tar.xz") t) from rfl]
    rw [hupx]
    dsimp only
    unfold removeThenPublish
    rw [hrm]
    dsimp only
    unfold publishArtifact
    rw [show hasSuffixStr (nodeUrl url) ".tar.7z" = false from
      tarxz_not_tar7z ("https://nodejs.org/dist/v" ++ goTake url (goIndex url "-")
        ++ "/node-v" ++ url)]
    dsimp only
    rw [hren]
    rfl
  · show derivedDirName (if ("node" : String) = "node" then "node" ++ "-" ++ url else "node")
      (effectiveUrl "node" url) = "node-" ++ url
    rw [if_pos rfl]
    unfold derivedDirName
    rw [if_neg (append_ne_empty_left ("node" ++ "-") url (by decide))]
    rfl

/-- Witness for C6 at the token `"12.8.1-linux-x64"`. -/
theorem c6_witness :
    (0 : Int) ≤ goIndex "12.8.1-linux-x64" "-"
    ∧ (DownloadArtifact envBase "node" "12.8.1-linux-x64" "cs" =
        (.ok (finalPathFor "/cache" (effectiveDirName "node" "12.8.1-linux-x64")),
          [Event.stat (finalPathFor "/cache" (effectiveDirName "node" "12.8.1-linux-x64")),
            Event.mkdirAll (familyCacheDir "/cache" (effectiveDirName "node" "12.8.1-linux-x64")),
            Event.tempDir (familyCacheDir "/cache" (effectiveDirName "node" "12.8.1-linux-x64")),
            Event.download (nodeUrl "12.8.1-linux-x64") ("/cache/node/t123" ++ ".tar.xz") "cs",
            Event.unpackTarXz ("/cache/node/t123" ++ ".tar.xz") "/cache/node/t123",
            Event.remove ("/cache/node/t123" ++ ".tar.xz"),
            Event.rename "/cache/node/t123"
              (finalPathFor "/cache" (effectiveDirName "node" "12.8.1-linux-x64"))])
      ∧ effectiveDirName "node" "12.8.1-linux-x64" = "node-" ++ "12.8.1-linux-x64"
      ∧ nodeUrl "12.8.1-linux-x64" =
          "https://nodejs.org/dist/v"
            ++ goTake "12.8.1-linux-x64" (goIndex "12.8.1-linux-x64" "-")
            ++ "/node-v" ++ "12.8.1-linux-x64" ++ ".tar.xz") :=
  ⟨by decide,
    c6_node_request_pipeline envBase "12.8.1-linux-x64" "cs" "/cache" "/cache/node/t123"
      (by decide) rfl rfl rfl rfl rfl rfl rfl rfl⟩

/-- Claim C8: in both `DownloadArtifact` and `DownloadCompressedArtifact`, a
stat error other than "does not exist" aborts the call with an error
wrapping the checked path, while the "does not exist" error is the cache
miss that lets acquisition proceed (the trace continues past the stat). -/
theorem c8_stat_error_aborts (env : Env)
    (dirName url checksum subDir curl ccheck root : String)
    (hf : dirName ≠ "fpm") (hz : dirName ≠ "zstd")
    (hn : dirName = "node" → 0 ≤ goIndex url "-")
    (hroot : GetCacheDirectory env "electron-builder" = .ok root) :
    (∀ m, env.stat (finalPathFor root (effectiveDirName dirName url)) = .errOther m →
      DownloadArtifact env dirName url checksum =
        (.err ("error during cache check for path "
            ++ finalPathFor root (effectiveDirName dirName url) ++ ": " ++ m),
          [Event.stat (finalPathFor root (effectiveDirName dirName url))]))
    ∧ (env.stat (finalPathFor root (effectiveDirName dirName url)) = .notExist →
      ∃ es, (DownloadArtifact env dirName url checksum).2 =
        Event.stat (finalPathFor root (effectiveDirName dirName url)) ::
          Event.mkdirAll (familyCacheDir root (effectiveDirName dirName url)) :: es)
    ∧ (∀ m, env.stat (joinPath (if subDir ≠ "" then joinPath root subDir else root)
          (pathBase curl)) = .errOther m →
      DownloadCompressedArtifact env subDir curl ccheck =
        (.err ("error during cache check for path "
            ++ joinPath (if subDir ≠ "" then joinPath root subDir else root) (pathBase curl)
            ++ ": " ++ m),
          [Event.stat (joinPath (if subDir ≠ "" then joinPath root subDir else root)
            (pathBase curl))]))
    ∧ (env.stat (joinPath (if subDir ≠ "" then joinPath root subDir else root)
          (pathBase curl)) = .notExist →
      ∃ es, (DownloadCompressedArtifact env subDir curl ccheck).2 =
        Event.stat (joinPath (if subDir ≠ "" then joinPath root subDir else root)
            (pathBase curl)) ::
          Event.mkdirAll (if subDir ≠ "" then joinPath root subDir else root) :: es) := by
  have hguard : ¬(dirName = "node" ∧ goIndex url "-" < 0) := by
    rintro ⟨h1, h2⟩
    exact absurd h2 (not_lt.mpr (hn h1))
  refine ⟨?_, ?_, ?_, ?_⟩
  · intro m hstat
    unfold DownloadArtifact downloadArtifactRaw
    rw [if_neg hf, if_neg hz, if_neg hguard, hroot]
    dsimp only
    rw [hstat]
  · intro hstat
    rw [downloadArtifact_eq_acquire env dirName url checksum root hf hz hn hroot hstat]
    obtain ⟨es, hes⟩ := acquireArtifact_snd_cons env (dirName = "node")
      (familyCacheDir root (effectiveDirName dirName url))
      (finalPathFor root (effectiveDirName dirName url))
      (effectiveUrl dirName url) checksum
    refine ⟨es, ?_⟩
    dsimp only
    rw [hes]
  · intro m hstat
    unfold DownloadCompressedArtifact
    rw [hroot]
    dsimp only
    rw [hstat]
  · intro hstat
    unfold DownloadCompressedArtifact
    rw [hroot]
    dsimp only
    rw [hstat]
    dsimp only
    rcases hmk : env.mkdirAll (if subDir ≠ "" then joinPath root subDir else root) with e | u
    · exact ⟨_, rfl⟩
    · dsimp only
      rcases htf : env.tempFile (if subDir ≠ "" then joinPath root subDir else root) ".snap"
          with e | tf
      · exact ⟨_, rfl⟩
      · dsimp only
        rcases hdl : env.download curl tf ccheck with e | u2
        · exact ⟨_, rfl⟩
        · dsimp only
          rcases hren : env.rename tf (joinPath
              (if subDir ≠ "" then joinPath root subDir else root) (pathBase curl))
              with e | u3
          · exact ⟨_, rfl⟩
          · exact ⟨_, rfl⟩

/-- Witness for C8: a permission error during the cache stat aborts
`DownloadArtifact` with the wrapped path. -/
theorem c8_witness :
    DownloadArtifact envStatErr "alpha" "http://x/y.7z" "" =
      (.err ("error during cache check for path "
          ++ finalPathFor "/cache" (effectiveDirName "alpha" "http://x/y.7z")
          ++ ": " ++ "permission denied"),
        [Event.stat (finalPathFor "/cache" (effectiveDirName "alpha" "http://x/y.7z"))]) :=
  (c8_stat_error_aborts envStatErr "alpha" "http://x/y.7z" "" "" "http://x/base.snap" ""
    "/cache" (by decide) (by decide) (by decide) rfl).1 "permission denied" rfl

/-- Claim C10: in `DownloadCompressedArtifact` a failure of the final rename
of the downloaded temp file into the final path is fatal (the call returns
an error), in contrast to `DownloadArtifact`, where under the analogous
conditions a failing publish rename still yields the final path with no
error. -/
theorem c10_compressed_rename_failure_fatal (env : Env)
    (subDir curl ccheck root tf e dirName url checksum t : String)
    (hroot : GetCacheDirectory env "electron-builder" = .ok root)
    (hstatC : env.stat (joinPath (if subDir ≠ "" then joinPath root subDir else root)
      (pathBase curl)) = .notExist)
    (hmkC : env.mkdirAll (if subDir ≠ "" then joinPath root subDir else root) = .ok ())
    (htf : env.tempFile (if subDir ≠ "" then joinPath root subDir else root) ".snap" = .ok tf)
    (hdlC : env.download curl tf ccheck = .ok ())
    (hrenC : env.rename tf (joinPath (if subDir ≠ "" then joinPath root subDir else root)
      (pathBase curl)) = .error e)
    (hf : dirName ≠ "fpm") (hz : dirName ≠ "zstd")
    (hn : dirName = "node" → 0 ≤ goIndex url "-")
    (hstatA : env.stat (finalPathFor root (effectiveDirName dirName url)) = .notExist)
    (hmkA : env.mkdirAll (familyCacheDir root (effectiveDirName dirName url)) = .ok ())
    (htA : env.tempDir (familyCacheDir root (effectiveDirName dirName url)) = .ok t)
    (hdlA : env.download (effectiveUrl dirName url)
      (t ++ archiveSfxFor (dirName = "node")) checksum = .ok ())
    (hupxA : env.runTarXzUnpack (t ++ ".tar.xz") t = .ok ())
    (hup7A : ∃ out, env.run7zExtract (t ++ ".7z") t = .ok out)
    (hrmA : env.remove (t ++ archiveSfxFor (dirName = "node")) = .ok) :
    (DownloadCompressedArtifact env subDir curl ccheck).1 = .err e
    ∧ (DownloadArtifact env dirName url checksum).1 =
        .ok (finalPathFor root (effectiveDirName dirName url)) := by
  constructor
  · unfold DownloadCompressedArtifact
    rw [hroot]
    dsimp only
    rw [hstatC]
    dsimp only
    rw [hmkC]
    dsimp only
    rw [htf]
    dsimp only
    rw [hdlC]
    dsimp only
    rw [hrenC]
  · rw [downloadArtifact_eq_acquire env dirName url checksum root hf hz hn hroot hstatA]
    exact (acquireArtifact_publish env (dirName = "node")
      (familyCacheDir root (effectiveDirName dirName url))
      (finalPathFor root (effectiveDirName dirName url))
      (effectiveUrl dirName url) checksum t hmkA htA hdlA hupxA hup7A hrmA).1

/-- Witness for C10: with every rename failing, the compressed variant
errors while the unpacking variant still returns its final path. -/
theorem c10_witness :
    (DownloadCompressedArtifact envRenameFail "" "http://x/base.snap" "").1 = .err "EEXIST"
    ∧ (DownloadArtifact envRenameFail "alpha" "http://x/y.7z" "").1 =
        .ok (finalPathFor "/cache" (effectiveDirName "alpha" "http://x/y.7z")) :=
  c10_compressed_rename_failure_fatal envRenameFail "" "http://x/base.snap" "" "/cache"
    "/cache/tf123.snap" "EEXIST" "alpha" "http://x/y.7z" "" "/cache/alpha/t123"
    rfl rfl rfl rfl rfl rfl (by decide) (by decide) (by decide) rfl rfl rfl rfl rfl
    ⟨"", rfl⟩ rfl

end AppBuilder
